import Mathlib

/-!
Verification of the `MultirotorDynamics` engine
(`Source/MulticopterSim/dynamics/NewMultirotorDynamics.hpp`).

The C++ class holds a 12-entry state array `_x`, a motor-speed working
buffer `_omegas`, an `_airborne` flag and the Equation-6 values
`_U1.._U4, _Omega`.  We embed it shallowly: `double` arithmetic is
idealised as a linearly ordered field `K` (instantiated at `ℚ` for
concrete evaluations), and the `math.h` trigonometric functions are
passed in as explicit function arguments, since the field `K` is
abstract.  Arrays become functions out of `Fin`; the in-place writes of
`update` become a chain of `Function.update`s so that every right-hand
side reads the array exactly as the source line does, including any
slot already overwritten earlier in the same call.
-/

namespace MSim

variable {K : Type} [LinearOrderedField K] {n : ℕ}

/-- Gravitational constant of the source: `static constexpr double g = 9.80665`. -/
def g : K := 980665 / 100000

/-- The source's own pi constant: `static constexpr double pi = 3.14159`. -/
def pi : K := 314159 / 100000

/-- Constants and mixing functions a vehicle subclass supplies: the pure
virtual methods `b, d, m, l, Ix, Iy, Iz, Jr, maxrpm` and the mixing
combinations `u2, u3, u4, omega`.  They are `const` in the source, so a
plain record is faithful. -/
structure Params (K : Type) (n : ℕ) where
  b : K
  d : K
  m : K
  l : K
  Ix : K
  Iy : K
  Iz : K
  Jr : K
  maxrpm : K
  u2 : (Fin n → K) → K
  u3 : (Fin n → K) → K
  u4 : (Fin n → K) → K
  omega : (Fin n → K) → K

/-- The mutable members of `MultirotorDynamics`: the state vector `_x[12]`,
the motor-speed buffer `_omegas` (length `n`), `_airborne`, and the
Equation-6 values `_U1, _U2, _U3, _U4, _Omega`. -/
@[ext] structure Dyn (K : Type) (n : ℕ) where
  x : Fin 12 → K
  omegas : Fin n → K
  airborne : Bool
  U1 : K
  U2 : K
  U3 : K
  U4 : K
  Omega : K

/-- The source's 1-based read accessor: `double x(int j) { return _x[j-1]; }`. -/
def x (a : Fin 12 → K) (j : ℕ) : K := a ⟨(j - 1) % 12, Nat.mod_lt _ (by norm_num)⟩

/-- `init(position, rotation, airborne)`: zeroes the whole state array, then
writes the pose into slots 0,2,4 (position) and 6,8,10 (rotation) and stores
the flag.  `_omegas` and `_U1.._U4, _Omega` are not touched. -/
def init (position rotation : Fin 3 → K) (airborne : Bool) (s : Dyn K n) : Dyn K n :=
  { s with
    x :=
      Function.update (Function.update (Function.update (Function.update
        (Function.update (Function.update (fun _ => 0)
          0 (position 0)) 2 (position 1)) 4 (position 2))
          6 (rotation 0)) 8 (rotation 1)) 10 (rotation 2),
    airborne := airborne }

/-- `update(dt)`: the twelve assignments of the source in order.  Each
`Function.update` is one source line `_x[i] = ...;` and each right-hand side
reads the array as it stands after the previous lines, exactly as the
in-place C++ writes do.  `dt` is accepted but never used, as in the source.
`tcos`/`tsin` stand for `math.h` `cos`/`sin`. -/
def update (p : Params K n) (tcos tsin : K → K) (dt : K) (s : Dyn K n) : Dyn K n :=
  let a := s.x
  let a := Function.update a 0 (x a 2)
  let a := Function.update a 1
    ((tcos (x a 7) * tsin (x a 9) * tcos (x a 11) + tsin (x a 7) * tsin (x a 11)) * s.U1 / p.m)
  let a := Function.update a 2 (x a 4)
  let a := Function.update a 3
    ((tcos (x a 7) * tsin (x a 9) * tsin (x a 11) + tsin (x a 7) * tcos (x a 11)) * s.U1 / p.m)
  let a := Function.update a 4 (x a 6)
  let a := Function.update a 5 (-g + (tcos (x a 7) * tcos (x a 9)) * s.U1 / p.m)
  let a := Function.update a 6 (x a 8)
  let a := Function.update a 7
    (x a 12 * x a 10 * (p.Iy - p.Iz) / p.Ix - p.Jr / p.Ix * x a 10 * s.Omega + p.l / p.Ix * s.U2)
  let a := Function.update a 8 (x a 10)
  let a := Function.update a 9
    (x a 12 * x a 8 * (p.Iz - p.Ix) / p.Iy + p.Jr / p.Iy * x a 8 * s.Omega + p.l / p.Iy * s.U3)
  let a := Function.update a 10 (x a 12)
  let a := Function.update a 11
    (x a 10 * x a 8 * (p.Ix - p.Iy) / p.Iz + p.l / p.Iz * s.U4)
  { s with x := a }

/-- `setMotors(motorvals)`: converts each command to rad/s accumulating the
raw sum, scales it by `b()` into `_U1`, takes `_Omega` from the raw speeds,
squares the buffer in place, and computes `_U2, _U3, _U4` from the squared
speeds.  The state array `_x` and `_airborne` are untouched. -/
def setMotors (p : Params K n) (motorvals : Fin n → K) (s : Dyn K n) : Dyn K n :=
  let os : Fin n → K := fun i => motorvals i * p.maxrpm * pi / 30
  let u1 : K := p.b * Finset.univ.sum os
  let om : K := p.omega os
  let o2 : Fin n → K := fun i => os i * os i
  { s with
    omegas := o2
    U1 := u1
    U2 := p.b * p.u2 o2
    U3 := p.b * p.u3 o2
    U4 := p.d * p.u4 o2
    Omega := om }

/-- `getState` in the source has an empty body: it writes nothing into its
four caller-supplied output arrays and reads nothing from the state.
Modelled as returning the output buffers exactly as they were passed in,
paired with the unchanged engine state. -/
def getState (s : Dyn K n) (angularVelocity eulerAngles velocityXYZ positionXYZ : Fin 3 → K) :
    ((Fin 3 → K) × (Fin 3 → K) × (Fin 3 → K) × (Fin 3 → K)) × Dyn K n :=
  ((angularVelocity, eulerAngles, velocityXYZ, positionXYZ), s)

/-- Modelled from the spec: the simultaneous-assignment (explicit-scheme)
reading of the same twelve assignments, in which every right-hand side is
evaluated from the state as it was at the start of the call.  The
right-hand sides are literally those of the source's `update`; only the
array each one reads differs. -/
def updateSimultaneous (p : Params K n) (tcos tsin : K → K) (dt : K) (s : Dyn K n) : Dyn K n :=
  let a := s.x
  { s with x := fun i =>
      if i.val = 0 then x a 2
      else if i.val = 1 then
        ((tcos (x a 7) * tsin (x a 9) * tcos (x a 11) + tsin (x a 7) * tsin (x a 11)) * s.U1 / p.m)
      else if i.val = 2 then x a 4
      else if i.val = 3 then
        ((tcos (x a 7) * tsin (x a 9) * tsin (x a 11) + tsin (x a 7) * tcos (x a 11)) * s.U1 / p.m)
      else if i.val = 4 then x a 6
      else if i.val = 5 then -g + (tcos (x a 7) * tcos (x a 9)) * s.U1 / p.m
      else if i.val = 6 then x a 8
      else if i.val = 7 then
        (x a 12 * x a 10 * (p.Iy - p.Iz) / p.Ix - p.Jr / p.Ix * x a 10 * s.Omega + p.l / p.Ix * s.U2)
      else if i.val = 8 then x a 10
      else if i.val = 9 then
        (x a 12 * x a 8 * (p.Iz - p.Ix) / p.Iy + p.Jr / p.Iy * x a 8 * s.Omega + p.l / p.Iy * s.U3)
      else if i.val = 10 then x a 12
      else x a 10 * x a 8 * (p.Ix - p.Iy) / p.Iz + p.l / p.Iz * s.U4 }

/-- Modelled from the spec (the §4.3 requirement the source does not meet):
the Euler step `state_next = state + derivative(state) * dt`, where the
derivative of each position/angle slot is the following rate slot and the
derivative of each rate slot is the §4.3 acceleration law, all evaluated at
the pre-step state. -/
def updateEuler (p : Params K n) (tcos tsin : K → K) (dt : K) (s : Dyn K n) : Dyn K n :=
  let a := s.x
  { s with x := fun i =>
      if i.val = 0 then x a 1 + x a 2 * dt
      else if i.val = 1 then
        (x a 2 + (tcos (x a 7) * tsin (x a 9) * tcos (x a 11) + tsin (x a 7) * tsin (x a 11)) * s.U1 / p.m * dt)
      else if i.val = 2 then x a 3 + x a 4 * dt
      else if i.val = 3 then
        (x a 4 + (tcos (x a 7) * tsin (x a 9) * tsin (x a 11) + tsin (x a 7) * tcos (x a 11)) * s.U1 / p.m * dt)
      else if i.val = 4 then x a 5 + x a 6 * dt
      else if i.val = 5 then x a 6 + (-g + (tcos (x a 7) * tcos (x a 9)) * s.U1 / p.m) * dt
      else if i.val = 6 then x a 7 + x a 8 * dt
      else if i.val = 7 then
        (x a 8 + (x a 12 * x a 10 * (p.Iy - p.Iz) / p.Ix - p.Jr / p.Ix * x a 10 * s.Omega + p.l / p.Ix * s.U2) * dt)
      else if i.val = 8 then x a 9 + x a 10 * dt
      else if i.val = 9 then
        (x a 10 + (x a 12 * x a 8 * (p.Iz - p.Ix) / p.Iy + p.Jr / p.Iy * x a 8 * s.Omega + p.l / p.Iy * s.U3) * dt)
      else if i.val = 10 then x a 11 + x a 12 * dt
      else x a 12 + (x a 10 * x a 8 * (p.Ix - p.Iy) / p.Iz + p.l / p.Iz * s.U4) * dt }

/-- The base-class constructor `MultirotorDynamics(int nmotors)`: its whole
body is `_omegas = new double[nmotors];`.  The private member `_nmotors`
(whose comment reads "Set by subclass constructor", although no subclass can
write a private member) is never assigned, so after construction it holds an
indeterminate value, modelled here as an arbitrary `junk` argument.  Only
the buffer length comes from the constructor argument. -/
structure Constructed where
  nmotorsField : Int
  omegasLen : ℕ

/-- The constructor's effect on the two members it concerns (see
`Constructed`): `_nmotors` keeps its indeterminate value `junk`; the buffer
length is `nmotors`. -/
def construct (nmotors : ℕ) (junk : Int) : Constructed :=
  { nmotorsField := junk, omegasLen := nmotors }

/-- One tick-loop call, for comparing whole call sequences: a `setMotors`
with its command vector, or an `update` with its trig functions and `dt`. -/
inductive Op (K : Type) (n : ℕ) where
  | setM : (Fin n → K) → Op K n
  | step : (K → K) → (K → K) → K → Op K n

/-- Apply one call to the engine state. -/
def applyOp (p : Params K n) : Op K n → Dyn K n → Dyn K n
  | .setM c, s => setMotors p c s
  | .step tcos tsin dt, s => update p tcos tsin dt s

/-- Run a sequence of `setMotors`/`update` calls. -/
def run (p : Params K n) : List (Op K n) → Dyn K n → Dyn K n
  | [], s => s
  | o :: os, s => run p os (applyOp p o s)

/-- Everything observable about the engine except the `_airborne` flag: the
12-state vector, the motor-speed buffer and the Equation-6 values. -/
def SameObs (s t : Dyn K n) : Prop :=
  s.x = t.x ∧ s.omegas = t.omegas ∧ s.U1 = t.U1 ∧ s.U2 = t.U2 ∧
  s.U3 = t.U3 ∧ s.U4 = t.U4 ∧ s.Omega = t.Omega

/-- A concrete symmetric 4-motor parameter set used for closed evaluations:
unit constants and plus-configuration style mixing combinations. -/
def qp : Params ℚ 4 where
  b := 1
  d := 1
  m := 1
  l := 1
  Ix := 1
  Iy := 1
  Iz := 1
  Jr := 1
  maxrpm := 3000
  u2 := fun v => v 3 - v 1
  u3 := fun v => v 2 - v 0
  u4 := fun v => v 1 + v 3 - v 0 - v 2
  omega := fun v => v 1 + v 3 - v 0 - v 2

/-- The all-zero engine state (the C++ member initialisers). -/
def zeroDyn : Dyn ℚ 4 :=
  { x := fun _ => 0, omegas := fun _ => 0, airborne := false,
    U1 := 0, U2 := 0, U3 := 0, U4 := 0, Omega := 0 }

/-- Constant-one stand-in for `cos`: equal to the real cosine on the zero
angles arising in the closed runs below. -/
def cos1 : ℚ → ℚ := fun _ => 1

/-- Constant-zero stand-in for `sin`: equal to the real sine on the zero
angles arising in the closed runs below. -/
def sin0 : ℚ → ℚ := fun _ => 0

/-- A state with unit roll rate (slot 8, 1-based), unit yaw rate (slot 12)
and unit gyroscopic term `_Omega`, all forces zero: the input separating the
source's sequential writes from simultaneous assignment. -/
def s4 : Dyn ℚ 4 :=
  { x := fun i => if i.val = 7 then 1 else if i.val = 11 then 1 else 0,
    omegas := fun _ => 0, airborne := false,
    U1 := 0, U2 := 0, U3 := 0, U4 := 0, Omega := 1 }

/-- The grounded pose (1,2,3) with zero rotation after a zero-command
`setMotors`: the §8 gravity scenario. -/
def run0 : Dyn ℚ 4 := setMotors qp (fun _ => 0) (init ![1, 2, 3] ![0, 0, 0] false zeroDyn)

/-- A zero output buffer for `getState`. -/
def z3 : Fin 3 → ℚ := fun _ => 0

/-- Half-throttle command vector, inside [0,1]. -/
def chalf : Fin 4 → ℚ := fun _ => 1 / 2

/-- C1: the claim says `update(dt)` produces `state + derivative(state)·dt`
in every component.  The source instead overwrites each slot with the raw
derivative, ignoring `dt`: from the grounded pose (1,2,3) with zero forces,
the vertical-velocity slot becomes `-g = -9.80665` where the claimed law
gives `0 + (-g)·dt = -0.0980665`, and the x-position slot becomes the old
x-velocity `0` where the claimed law gives `1 + 0·dt = 1`.  `cos1`/`sin0`
agree with cosine/sine on the zero angles arising here. -/
theorem update_not_euler_step :
    (update qp cos1 sin0 (1 / 100) (init ![1, 2, 3] ![0, 0, 0] false zeroDyn)).x 5
        = -(980665 / 100000 : ℚ) ∧
    (updateEuler qp cos1 sin0 (1 / 100) (init ![1, 2, 3] ![0, 0, 0] false zeroDyn)).x 5
        = -(980665 / 100000 : ℚ) * (1 / 100) ∧
    (update qp cos1 sin0 (1 / 100) (init ![1, 2, 3] ![0, 0, 0] false zeroDyn)).x 5
        ≠ (updateEuler qp cos1 sin0 (1 / 100) (init ![1, 2, 3] ![0, 0, 0] false zeroDyn)).x 5 ∧
    (update qp cos1 sin0 (1 / 100) (init ![1, 2, 3] ![0, 0, 0] false zeroDyn)).x 0 = 0 ∧
    (updateEuler qp cos1 sin0 (1 / 100) (init ![1, 2, 3] ![0, 0, 0] false zeroDyn)).x 0 = 1 := by
  have h5 : (update qp cos1 sin0 (1 / 100) (init ![1, 2, 3] ![0, 0, 0] false zeroDyn)).x 5
      = -(980665 / 100000 : ℚ) := by
    simp [update, x, init, zeroDyn, qp, cos1, sin0, Function.update, g]
  have h5e : (updateEuler qp cos1 sin0 (1 / 100) (init ![1, 2, 3] ![0, 0, 0] false zeroDyn)).x 5
      = -(980665 / 100000 : ℚ) * (1 / 100) := by
    simp [updateEuler, x, init, zeroDyn, qp, cos1, sin0, Function.update, g]
    try rfl
  have h0 : (update qp cos1 sin0 (1 / 100) (init ![1, 2, 3] ![0, 0, 0] false zeroDyn)).x 0
      = 0 := by
    simp [update, x, init, zeroDyn, qp, cos1, sin0, Function.update, g]
  have h0e : (updateEuler qp cos1 sin0 (1 / 100) (init ![1, 2, 3] ![0, 0, 0] false zeroDyn)).x 0
      = 1 := by
    simp [updateEuler, x, init, zeroDyn, qp, cos1, sin0, Function.update, g]
    try rfl
  exact ⟨h5, h5e, by rw [h5, h5e]; norm_num, h0, h0e⟩

/-- C2: the claim says `init(p,r,airborne)` followed by `getState` fills the
position output with `p` (and the other three triples from the state).  The
source's `getState` has an empty body: it returns the caller's buffers
untouched and the state unchanged, so after `init((1,2,3),(0,0,0))` the
position output buffer still reads 0 while the stored x-position is 1. -/
theorem getState_writes_nothing :
    (getState (init ![1, 2, 3] ![0, 0, 0] false zeroDyn) z3 z3 z3 z3).1 = (z3, z3, z3, z3) ∧
    (getState (init ![1, 2, 3] ![0, 0, 0] false zeroDyn) z3 z3 z3 z3).2
        = init ![1, 2, 3] ![0, 0, 0] false zeroDyn ∧
    (getState (init ![1, 2, 3] ![0, 0, 0] false zeroDyn) z3 z3 z3 z3).1.2.2.2 0 = 0 ∧
    (init ![1, 2, 3] ![0, 0, 0] false zeroDyn).x 0 = 1 := by
  refine ⟨rfl, rfl, rfl, ?_⟩
  simp [init, Function.update]

/-- C3: `setMotors` converts each command `c i` to `c i * maxrpm * pi / 30`,
sets `U1 = b * (sum of the unsquared speeds)`, takes `Omega` from the raw
speeds, stores the squared speeds in the buffer, and sets `U2 = b * u2`,
`U3 = b * u3` and `U4 = d * u4` of the squared speeds; and whenever every
command is zero and the mixing functions send the zero vector to zero, all
of `U1, U2, U3, U4, Omega` are zero. -/
theorem setMotors_eqn6 (p : Params K n) (s : Dyn K n) (c : Fin n → K)
    (hc : ∀ i, 0 ≤ c i ∧ c i ≤ 1) :
    (setMotors p c s).U1 = p.b * Finset.univ.sum (fun i => c i * p.maxrpm * pi / 30) ∧
    (setMotors p c s).Omega = p.omega (fun i => c i * p.maxrpm * pi / 30) ∧
    (setMotors p c s).omegas
        = (fun i => (c i * p.maxrpm * pi / 30) * (c i * p.maxrpm * pi / 30)) ∧
    (setMotors p c s).U2 = p.b * p.u2 (setMotors p c s).omegas ∧
    (setMotors p c s).U3 = p.b * p.u3 (setMotors p c s).omegas ∧
    (setMotors p c s).U4 = p.d * p.u4 (setMotors p c s).omegas ∧
    ((∀ i, c i = 0) → p.omega (fun _ => 0) = 0 → p.u2 (fun _ => 0) = 0 →
      p.u3 (fun _ => 0) = 0 → p.u4 (fun _ => 0) = 0 →
      (setMotors p c s).U1 = 0 ∧ (setMotors p c s).U2 = 0 ∧ (setMotors p c s).U3 = 0 ∧
      (setMotors p c s).U4 = 0 ∧ (setMotors p c s).Omega = 0) := by
  refine ⟨rfl, rfl, rfl, rfl, rfl, rfl, ?_⟩
  intro h0 hom h2 h3 h4
  have hos : (fun i => c i * p.maxrpm * pi / 30) = (fun _ => (0 : K)) := by
    funext i; rw [h0 i]; ring
  have ho2 : (fun i => (c i * p.maxrpm * pi / 30) * (c i * p.maxrpm * pi / 30))
      = (fun _ => (0 : K)) := by
    funext i; rw [h0 i]; ring
  refine ⟨?_, ?_, ?_, ?_, ?_⟩
  · show p.b * Finset.univ.sum (fun i => c i * p.maxrpm * pi / 30) = 0
    rw [hos, Finset.sum_const_zero, mul_zero]
  · show p.b * p.u2 (fun i => (c i * p.maxrpm * pi / 30) * (c i * p.maxrpm * pi / 30)) = 0
    rw [ho2, h2, mul_zero]
  · show p.b * p.u3 (fun i => (c i * p.maxrpm * pi / 30) * (c i * p.maxrpm * pi / 30)) = 0
    rw [ho2, h3, mul_zero]
  · show p.d * p.u4 (fun i => (c i * p.maxrpm * pi / 30) * (c i * p.maxrpm * pi / 30)) = 0
    rw [ho2, h4, mul_zero]
  · show p.omega (fun i => c i * p.maxrpm * pi / 30) = 0
    rw [hos, hom]

/-- Witness for the previous theorem at half throttle on the concrete
4-motor parameter set. -/
theorem setMotors_eqn6_witness :
    (∀ i : Fin 4, 0 ≤ chalf i ∧ chalf i ≤ 1) ∧
    (setMotors qp chalf zeroDyn).U1
        = qp.b * Finset.univ.sum (fun i => chalf i * qp.maxrpm * pi / 30) :=
  ⟨fun i => ⟨by norm_num [chalf], by norm_num [chalf]⟩,
    (setMotors_eqn6 qp zeroDyn chalf
      (fun i => ⟨by norm_num [chalf], by norm_num [chalf]⟩)).1⟩

/-- C4: the claim says every right-hand side of `update` is evaluated from
the state as it was at the start of the call.  In the source, the
assignment to `_x[9]` reads `x(8) = _x[7]`, which line 144 has already
overwritten: from a state with unit roll rate, unit yaw rate and unit
`_Omega` (all forces zero) on unit constants, the sequential source leaves
the pitch-acceleration slot at 0 while the simultaneous reading gives
`Jr/Iy * x(8) * Omega = 1`. -/
theorem update_aliasing_not_simultaneous :
    (update qp cos1 sin0 (1 / 100) s4).x 9 = 0 ∧
    (updateSimultaneous qp cos1 sin0 (1 / 100) s4).x 9 = 1 ∧
    (update qp cos1 sin0 (1 / 100) s4).x 9
        ≠ (updateSimultaneous qp cos1 sin0 (1 / 100) s4).x 9 := by
  refine ⟨?_, ?_, ?_⟩ <;>
    · simp [update, updateSimultaneous, x, s4, qp, cos1, sin0, Function.update, g]
      try decide

/-- C6: the claim (quoting §8 with the §4.3 dt-scaling fix) says that from a
grounded pose with zero thrust, one `update(dt = 0.01)` yields vertical
velocity `-g·dt` and no horizontal motion.  The source instead yields
vertical velocity `-g` itself and zeroes the horizontal position slots
(overwriting them with the zero horizontal velocities): from pose (1,2,3)
the x-position slot drops from 1 to 0.  The spec-modelled Euler step
satisfies the claim at the same input. -/
theorem grounded_zero_thrust_step :
    (update qp cos1 sin0 (1 / 100) run0).x 5 = -(980665 / 100000 : ℚ) ∧
    (update qp cos1 sin0 (1 / 100) run0).x 5 ≠ -(980665 / 100000 : ℚ) * (1 / 100) ∧
    (update qp cos1 sin0 (1 / 100) run0).x 0 = 0 ∧
    (update qp cos1 sin0 (1 / 100) run0).x 0 ≠ run0.x 0 ∧
    run0.x 0 = 1 ∧
    (update qp cos1 sin0 (1 / 100) run0).x 1 = 0 ∧
    (update qp cos1 sin0 (1 / 100) run0).x 2 = 0 ∧
    (update qp cos1 sin0 (1 / 100) run0).x 3 = 0 ∧
    (updateEuler qp cos1 sin0 (1 / 100) run0).x 5 = -(980665 / 100000 : ℚ) * (1 / 100) ∧
    (updateEuler qp cos1 sin0 (1 / 100) run0).x 0 = 1 ∧
    (updateEuler qp cos1 sin0 (1 / 100) run0).x 1 = 0 := by
  have h5 : (update qp cos1 sin0 (1 / 100) run0).x 5 = -(980665 / 100000 : ℚ) := by
    simp [update, run0, setMotors, x, init, zeroDyn, qp, cos1, sin0, Function.update, g,
      Fin.sum_univ_four]
  have h0 : (update qp cos1 sin0 (1 / 100) run0).x 0 = 0 := by
    simp [update, run0, setMotors, x, init, zeroDyn, qp, cos1, sin0, Function.update, g,
      Fin.sum_univ_four]
  have hr : run0.x 0 = 1 := by
    simp [run0, setMotors, x, init, zeroDyn, qp, Function.update, Fin.sum_univ_four]
  have h1 : (update qp cos1 sin0 (1 / 100) run0).x 1 = 0 := by
    simp [update, run0, setMotors, x, init, zeroDyn, qp, cos1, sin0, Function.update, g,
      Fin.sum_univ_four]
  have h2 : (update qp cos1 sin0 (1 / 100) run0).x 2 = 0 := by
    simp [update, run0, setMotors, x, init, zeroDyn, qp, cos1, sin0, Function.update, g,
      Fin.sum_univ_four]
  have h3 : (update qp cos1 sin0 (1 / 100) run0).x 3 = 0 := by
    simp [update, run0, setMotors, x, init, zeroDyn, qp, cos1, sin0, Function.update, g,
      Fin.sum_univ_four]
  have h5e : (updateEuler qp cos1 sin0 (1 / 100) run0).x 5
      = -(980665 / 100000 : ℚ) * (1 / 100) := by
    simp [updateEuler, run0, setMotors, x, init, zeroDyn, qp, cos1, sin0, Function.update, g,
      Fin.sum_univ_four]
    try rfl
  have h0e : (updateEuler qp cos1 sin0 (1 / 100) run0).x 0 = 1 := by
    simp [updateEuler, run0, setMotors, x, init, zeroDyn, qp, cos1, sin0, Function.update, g,
      Fin.sum_univ_four]
    try rfl
  have h1e : (updateEuler qp cos1 sin0 (1 / 100) run0).x 1 = 0 := by
    simp [updateEuler, run0, setMotors, x, init, zeroDyn, qp, cos1, sin0, Function.update, g,
      Fin.sum_univ_four]
    try rfl
  exact ⟨h5, by rw [h5]; norm_num, h0, by rw [h0, hr]; norm_num, hr, h1, h2, h3, h5e, h0e, h1e⟩

/-- C7: the claim says construction with motor count `n` establishes that
the stored motor count `_nmotors` equals `n`.  The constructor's only
statement allocates the buffer; `_nmotors` (private, so no subclass can set
it despite its comment) is never assigned and keeps an indeterminate value:
for every junk value it equals that junk value, and at junk 7 it differs
from the constructed count 4. -/
theorem construct_ignores_nmotors :
    (∀ junk : Int, (construct 4 junk).nmotorsField = junk ∧ (construct 4 junk).omegasLen = 4) ∧
    (construct 4 7).nmotorsField ≠ 4 :=
  ⟨fun _ => ⟨rfl, rfl⟩, by decide⟩

/-- C8: `init` is idempotent as a whole-state transformation, the resulting
12-state vector does not depend on the prior state, the position/rotation
inputs land in slots 0,2,4 and 6,8,10, and all six rate slots are zero. -/
theorem init_idempotent_and_forgets (position rotation : Fin 3 → K) (ab : Bool)
    (s t : Dyn K n) :
    init position rotation ab (init position rotation ab s) = init position rotation ab s ∧
    (init position rotation ab s).x = (init position rotation ab t).x ∧
    (init position rotation ab s).x 0 = position 0 ∧
    (init position rotation ab s).x 2 = position 1 ∧
    (init position rotation ab s).x 4 = position 2 ∧
    (init position rotation ab s).x 6 = rotation 0 ∧
    (init position rotation ab s).x 8 = rotation 1 ∧
    (init position rotation ab s).x 10 = rotation 2 ∧
    (init position rotation ab s).x 1 = 0 ∧
    (init position rotation ab s).x 3 = 0 ∧
    (init position rotation ab s).x 5 = 0 ∧
    (init position rotation ab s).x 7 = 0 ∧
    (init position rotation ab s).x 9 = 0 ∧
    (init position rotation ab s).x 11 = 0 := by
  refine ⟨rfl, rfl, ?_, ?_, ?_, ?_, ?_, ?_, ?_, ?_, ?_, ?_, ?_, ?_⟩ <;>
    simp [init, Function.update]

/-- Congruence of `update` in the non-airborne observables: its output state
vector is a function of the input state vector and the stored forces only. -/
theorem update_x_congr (p : Params K n) (tcos tsin : K → K) (dt : K) {s t : Dyn K n}
    (hx : s.x = t.x) (h1 : s.U1 = t.U1) (h2 : s.U2 = t.U2) (h3 : s.U3 = t.U3)
    (h4 : s.U4 = t.U4) (hO : s.Omega = t.Omega) :
    (update p tcos tsin dt s).x = (update p tcos tsin dt t).x := by
  unfold update
  rw [hx, h1, h2, h3, h4, hO]

/-- Each `setMotors`/`update` call preserves agreement on everything except
the `_airborne` flag. -/
theorem sameObs_applyOp (p : Params K n) (o : Op K n) {s t : Dyn K n} (h : SameObs s t) :
    SameObs (applyOp p o s) (applyOp p o t) := by
  obtain ⟨hx, hom, h1, h2, h3, h4, hO⟩ := h
  cases o with
  | setM c => exact ⟨hx, rfl, rfl, rfl, rfl, rfl, rfl⟩
  | step tcos tsin dt =>
      exact ⟨update_x_congr p tcos tsin dt hx h1 h2 h3 h4 hO, hom, h1, h2, h3, h4, hO⟩

/-- Runs preserve agreement on everything except the `_airborne` flag. -/
theorem sameObs_run (p : Params K n) (ops : List (Op K n)) {s t : Dyn K n} (h : SameObs s t) :
    SameObs (run p ops s) (run p ops t) := by
  induction ops generalizing s t with
  | nil => exact h
  | cons o os ih => exact ih (sameObs_applyOp p o h)

/-- C9: the airborne flag passed to `init` influences no later observable:
two runs that differ only in that flag and then apply the same sequence of
`setMotors`/`update` calls agree on the 12-state vector, the motor-speed
buffer, all of `U1..U4, Omega`, and the (pass-through) `getState` outputs. -/
theorem airborne_flag_noninterference (p : Params K n) (ops : List (Op K n))
    (position rotation : Fin 3 → K) (a1 a2 : Bool) (s : Dyn K n)
    (bufA bufE bufV bufP : Fin 3 → K) :
    SameObs (run p ops (init position rotation a1 s)) (run p ops (init position rotation a2 s)) ∧
    (getState (run p ops (init position rotation a1 s)) bufA bufE bufV bufP).1
      = (getState (run p ops (init position rotation a2 s)) bufA bufE bufV bufP).1 :=
  ⟨sameObs_run p ops ⟨rfl, rfl, rfl, rfl, rfl, rfl, rfl⟩, rfl⟩

/-- C10: `setMotors` leaves the 12-state vector (and the flag) untouched,
and `update` leaves `U1..U4, Omega`, the motor-speed buffer and the flag
untouched; so the forces change only through `setMotors` and the state
vector only through `init` or `update`. -/
theorem frame_setMotors_update (p : Params K n) (c : Fin n → K) (tcos tsin : K → K)
    (dt : K) (s : Dyn K n) :
    (setMotors p c s).x = s.x ∧ (setMotors p c s).airborne = s.airborne ∧
    (update p tcos tsin dt s).U1 = s.U1 ∧ (update p tcos tsin dt s).U2 = s.U2 ∧
    (update p tcos tsin dt s).U3 = s.U3 ∧ (update p tcos tsin dt s).U4 = s.U4 ∧
    (update p tcos tsin dt s).Omega = s.Omega ∧
    (update p tcos tsin dt s).omegas = s.omegas ∧
    (update p tcos tsin dt s).airborne = s.airborne :=
  ⟨rfl, rfl, rfl, rfl, rfl, rfl, rfl, rfl, rfl⟩

end MSim
